import Mathlib

/-!
Verification of the open-dmx library (DMX512 over a serial line).

The development shallowly embeds the Rust sources:
* `src/lib.rs` — the channel-validity check and the `DMX_CHANNELS` constant;
* `src/dmx_serial.rs` — the `DMXSerial` facade (channel buffer, mode flag,
  packet interval, signalling endpoints), the worker loop, and the
  `DMXSerialAgent` frame protocol (`send_break`, `send_data`,
  `send_dmx_packet`);
* `src/error.rs` — the error taxonomy.

Durations are modelled in nanoseconds as `Nat` (Rust `Duration` is an
unsigned quantity, and `Duration::saturating_sub` is exactly truncated
`Nat` subtraction).  Serial-port traffic is modelled as a trace of
`PortEvent`s on the success path; bytes are `Nat` values.
-/

namespace OpenDMX

/-- `pub const DMX_CHANNELS: usize = 512;` from `src/lib.rs`. -/
def DMX_CHANNELS : Nat := 512

/-- `const TIME_BREAK_TO_DATA: Duration = Duration::new(0, 136_000)` from
`src/dmx_serial.rs`, in nanoseconds (136 000 ns = 136 µs). -/
def TIME_BREAK_TO_DATA : Nat := 136000

/-- The default minimum break-to-break interval set by `DMXSerial::open`,
`Duration::from_micros(22_700)`, in nanoseconds (22.7 ms). -/
def DEFAULT_MIN_B2B : Nat := 22700000

/-- `DMXChannelValidityError` from `src/error.rs`: the channel index is
outside the valid range, distinguishing too-high from too-low. -/
inductive DMXChannelValidityError where
  | tooHigh
  | tooLow
deriving DecidableEq, Repr

/-- `DMXDisconnectionError` from `src/error.rs`: the worker has gone away. -/
inductive DMXDisconnectionError where
  | mk
deriving DecidableEq, Repr

/-- `check_valid_channel` from `src/lib.rs`: rejects a channel index above
`DMX_CHANNELS` as too high, below `1` as too low, accepts the rest.  The
source checks the too-high branch first. -/
def check_valid_channel (channel : Nat) : Except DMXChannelValidityError Unit :=
  if channel > DMX_CHANNELS then
    .error .tooHigh
  else if channel < 1 then
    .error .tooLow
  else
    .ok ()

/-- Parity setting of the serial line (`serialport::Parity`). -/
inductive Parity where
  | parityNone
  | parityOdd
  | parityEven
deriving DecidableEq, Repr

/-- Flow-control setting of the serial line (`serialport::FlowControl`). -/
inductive FlowControl where
  | fcNone
  | fcSoftware
  | fcHardware
deriving DecidableEq, Repr

/-- One observable action on the transport: a line reconfiguration, a byte
write, or a sleep of the worker thread (nanoseconds).  `send_break`,
`send_data` and `send_dmx_packet` are modelled as the trace of these events
they emit on their success path. -/
inductive PortEvent where
  | setBaudRate : Nat → PortEvent
  | setDataBits : Nat → PortEvent
  | setStopBits : Nat → PortEvent
  | setParity : Parity → PortEvent
  | setFlowControl : FlowControl → PortEvent
  | write : List Nat → PortEvent
  | sleepNanos : Nat → PortEvent
deriving DecidableEq, Repr

/-- `DMXSerialAgent::send_break` from `src/dmx_serial.rs`: reconfigure the
line to 57600 baud / 7 data bits / 1 stop bit / no parity / no flow control,
then write a single zero byte. -/
def send_break : List PortEvent :=
  [.setBaudRate 57600, .setDataBits 7, .setStopBits 1,
   .setParity .parityNone, .setFlowControl .fcNone, .write [0]]

/-- `DMXSerialAgent::send_data` from `src/dmx_serial.rs`: reconfigure the
line to 250000 baud / 8 data bits / 2 stop bits / no parity / no flow
control, then write the given bytes. -/
def send_data (data : List Nat) : List PortEvent :=
  [.setBaudRate 250000, .setDataBits 8, .setStopBits 2,
   .setParity .parityNone, .setFlowControl .fcNone, .write data]

/-- The payload built inside `send_dmx_packet`:
`let mut prefixed_data = [0; 513]; prefixed_data[1..].copy_from_slice(&channels);`
i.e. a zero start code followed by the 512 channel bytes. -/
def prefixed_data (channels : List Nat) : List Nat :=
  0 :: channels

/-- The final inter-packet sleep of `send_dmx_packet`:
`min_b2b.saturating_sub(start.elapsed())`.  `Nat` subtraction is truncated,
exactly like `Duration::saturating_sub`. -/
def inter_packet_sleep (minB2B elapsed : Nat) : Nat :=
  minB2B - elapsed

/-- `DMXSerialAgent::send_dmx_packet` from `src/dmx_serial.rs`, as the event
trace of its success path: the break, the fixed break-to-data sleep, the
data frame, then the saturating inter-packet sleep.  `minB2B` is the value
read from the shared `min_b2b` duration and `elapsed` the wall-clock time
since `start = Instant::now()` at the top of the function, both in
nanoseconds. -/
def send_dmx_packet (channels : List Nat) (minB2B elapsed : Nat) : List PortEvent :=
  send_break ++ [.sleepNanos TIME_BREAK_TO_DATA]
    ++ send_data (prefixed_data channels)
    ++ [.sleepNanos (inter_packet_sleep minB2B elapsed)]

/-- The `DMXSerial` facade from `src/dmx_serial.rs`.  `channels` models the
shared `[u8; DMX_CHANNELS]` buffer (invariantly of length 512), `is_sync`
the shared mode flag, `min_time_break_to_break` the shared packet interval
in nanoseconds, and `agent` abstractly identifies the signalling-endpoint
pair (`AgentCommunication`) wired to the spawned worker — replaced wholesale
by a fresh token when a new instance is built. -/
structure DMXSerial where
  name : String
  channels : List Nat
  is_sync : Bool
  min_time_break_to_break : Nat
  agent : Nat
deriving DecidableEq, Repr

/-- `DMXSerial::set_channel`: validate the index, then write `value` at
`channel - 1`.  The outer `Option` models the panic branch of the Rust
indexing operation `channels[channel - 1]` — `none` is an out-of-bounds
panic, which claim C10 shows unreachable. -/
def DMXSerial.set_channel (d : DMXSerial) (channel value : Nat) :
    Option (Except DMXChannelValidityError DMXSerial) :=
  match check_valid_channel channel with
  | .error e => some (.error e)
  | .ok _ =>
    if channel - 1 < d.channels.length then
      some (.ok { d with channels := d.channels.set (channel - 1) value })
    else
      none

/-- `DMXSerial::set_channels`: overwrite the whole buffer. -/
def DMXSerial.set_channels (d : DMXSerial) (channels : List Nat) : DMXSerial :=
  { d with channels := channels }

/-- `DMXSerial::get_channel`: validate the index, then read `channel - 1`.
The outer `Option` models the panic branch of the indexing operation, as in
`set_channel`. -/
def DMXSerial.get_channel (d : DMXSerial) (channel : Nat) :
    Option (Except DMXChannelValidityError Nat) :=
  match check_valid_channel channel with
  | .error e => some (.error e)
  | .ok _ => (d.channels[channel - 1]?).map .ok

/-- `DMXSerial::get_channels`: copy of the whole buffer. -/
def DMXSerial.get_channels (d : DMXSerial) : List Nat :=
  d.channels

/-- `DMXSerial::is_sync` accessor. -/
def DMXSerial.isSyncMode (d : DMXSerial) : Bool :=
  d.is_sync

/-- `DMXSerial::get_packet_time` accessor (nanoseconds). -/
def DMXSerial.get_packet_time (d : DMXSerial) : Nat :=
  d.min_time_break_to_break

/-- `DMXSerial::open` from `src/dmx_serial.rs`.  Opening the underlying
serial port is an external effect: `env` is its outcome, either an open
error or a fresh agent token (the new worker and its endpoints).  On
success the facade starts with a zeroed buffer, async mode, and the default
22.7 ms packet interval. -/
def openDMX (port : String) (env : Except String Nat) :
    Except String DMXSerial :=
  match env with
  | .error e => .error e
  | .ok tok =>
    .ok { name := port
          channels := List.replicate DMX_CHANNELS 0
          is_sync := false
          min_time_break_to_break := DEFAULT_MIN_B2B
          agent := tok }

/-- `DMXSerial::reopen`: capture the channel values, `open` on the stored
name (the `?` operator returns the open error with `self` untouched),
replace `*self` with the new instance, restore the captured channels.
Returns the call's result together with the facade state after the call. -/
def DMXSerial.reopen (d : DMXSerial) (env : Except String Nat) :
    Except String Unit × DMXSerial :=
  let channels := d.get_channels
  match openDMX d.name env with
  | .error e => (.error e, d)
  | .ok newDmx => (.ok (), newDmx.set_channels channels)

/-- State of the completion channel between worker and facade, as seen by
the facade's receiver: `buffered` are the messages sitting in the channel's
buffer and `senderConnected` tells whether the worker's sender half is
still alive.  The channel is created by `mpsc::sync_channel(0)`: a
rendezvous channel with no buffer, so in this program `buffered = []` in
every reachable state (`rendezvous_never_buffers` below). -/
structure CompletionChannel where
  buffered : List Unit
  senderConnected : Bool
deriving DecidableEq, Repr

/-- Result of `Receiver::try_recv`. -/
inductive TryRecvResult where
  | received
  | empty
  | disconnected
deriving DecidableEq, Repr

/-- `Receiver::try_recv` semantics: take a buffered message if one exists;
otherwise report `Empty` while the sender lives and `Disconnected` once it
is gone. -/
def try_recv (ch : CompletionChannel) : TryRecvResult × CompletionChannel :=
  match ch.buffered with
  | _ :: rest => (.received, { ch with buffered := rest })
  | [] =>
    if ch.senderConnected then (.empty, ch) else (.disconnected, ch)

/-- `SyncSender::try_send` on a zero-capacity (rendezvous) channel: hand the
message to a waiting receiver if there is one, otherwise fail with `Full`
(or `Disconnected`); in no case does a message enter a buffer.  Only the
effect on the channel state matters here: it is unchanged. -/
def try_send_rendezvous (ch : CompletionChannel) : CompletionChannel :=
  ch

/-- `DMXSerial::check_agent` from `src/dmx_serial.rs`:
`if let Err(TryRecvError::Disconnected) = self.agent.rx.try_recv() { Err }`,
else `Ok(())`.  Returns the result and the channel state after the probe. -/
def check_agent (ch : CompletionChannel) :
    Except DMXDisconnectionError Unit × CompletionChannel :=
  match try_recv ch with
  | (.disconnected, ch2) => (.error .mk, ch2)
  | (_, ch2) => (.ok (), ch2)

/-- Program counter of the worker loop spawned by `DMXSerial::open`:
check the mode flag, possibly block on the rendezvous trigger
(`handler_rec.recv()`), call `send_dmx_packet`, try-send the completion
signal, or exit (`break`). -/
inductive WPC where
  | checkMode
  | waitTrigger
  | sendPacket
  | notify
  | exited
deriving DecidableEq, Repr

/-- State of the worker loop together with the trigger channel it receives
from: `triggers` are the pending rendezvous messages sent by
`update`/`update_async` (none are ever added in a run where the caller
never calls them), `triggerConnected` tells whether the facade's sender
half is alive, and `framesSent` counts completed `send_dmx_packet`
invocations. -/
structure WorkerState where
  pc : WPC
  triggers : List Unit
  triggerConnected : Bool
  framesSent : Nat
deriving DecidableEq, Repr

/-- One step of the worker loop of `DMXSerial::open`, with the mode flag
read as `isSync` on this cycle.  Blocking (`recv` on an empty, connected
trigger channel) is the absence of an applicable step.  I/O failure of
`send_dmx_packet` and teardown of the completion channel both nondeterministically
exit the loop, as in the source. -/
inductive WorkerStep (isSync : Bool) : WorkerState → WorkerState → Prop where
  | toWait (s : WorkerState) (h : s.pc = .checkMode) (hs : isSync = true) :
      WorkerStep isSync s { s with pc := .waitTrigger }
  | toSendAsync (s : WorkerState) (h : s.pc = .checkMode) (hs : isSync = false) :
      WorkerStep isSync s { s with pc := .sendPacket }
  | recvTrigger (s : WorkerState) (rest : List Unit) (h : s.pc = .waitTrigger)
      (ht : s.triggers = () :: rest) :
      WorkerStep isSync s { s with pc := .sendPacket, triggers := rest }
  | recvDisconnected (s : WorkerState) (h : s.pc = .waitTrigger)
      (ht : s.triggers = []) (hc : s.triggerConnected = false) :
      WorkerStep isSync s { s with pc := .exited }
  | sendOk (s : WorkerState) (h : s.pc = .sendPacket) :
      WorkerStep isSync s { s with pc := .notify, framesSent := s.framesSent + 1 }
  | sendErr (s : WorkerState) (h : s.pc = .sendPacket) :
      WorkerStep isSync s { s with pc := .exited, framesSent := s.framesSent + 1 }
  | notifyOk (s : WorkerState) (h : s.pc = .notify) :
      WorkerStep isSync s { s with pc := .checkMode }
  | notifyDisconnected (s : WorkerState) (h : s.pc = .notify) :
      WorkerStep isSync s { s with pc := .exited }

/-- Worker state right after `open_sync` returns and before any caller
interaction: at the top of the loop, no pending trigger, facade alive, no
frame sent yet. -/
def worker_initial : WorkerState :=
  { pc := .checkMode, triggers := [], triggerConnected := true, framesSent := 0 }

/-- A concrete facade instance, used to instantiate theorems with
hypotheses at explicit inputs. -/
def sampleDMX : DMXSerial :=
  { name := "COM3"
    channels := List.replicate DMX_CHANNELS 0
    is_sync := false
    min_time_break_to_break := DEFAULT_MIN_B2B
    agent := 0 }

/-- A zero-capacity channel never holds a buffered message: the worker's
`try_send` on the rendezvous completion channel leaves the (empty) buffer
empty, which justifies the `buffered = []` hypothesis used about
`check_agent`. -/
theorem rendezvous_never_buffers (ch : CompletionChannel)
    (h : ch.buffered = []) : (try_send_rendezvous ch).buffered = [] :=
  h

/-- Claim C1: for every 512-byte channel array, `send_dmx_packet` emits, in
order, the break phase (57600 baud, 7 data bits, no parity, 1 stop bit, one
zero byte written), a 136 µs sleep, and the data phase (250000 baud, 8 data
bits, no parity, 2 stop bits, one 513-byte payload whose byte 0 is the
start code 0x00 and whose bytes 1..513 are the 512 channel values in index
order). -/
theorem claim_C1 (channels : List Nat) (h : channels.length = 512)
    (minB2B elapsed : Nat) :
    ∃ payload : List Nat,
      send_dmx_packet channels minB2B elapsed =
        [.setBaudRate 57600, .setDataBits 7, .setStopBits 1,
         .setParity .parityNone, .setFlowControl .fcNone, .write [0],
         .sleepNanos 136000,
         .setBaudRate 250000, .setDataBits 8, .setStopBits 2,
         .setParity .parityNone, .setFlowControl .fcNone, .write payload,
         .sleepNanos (minB2B - elapsed)]
      ∧ payload.length = 513
      ∧ payload[0]? = some 0
      ∧ ∀ i : Nat, i < 512 → payload[i + 1]? = channels[i]? := by
  refine ⟨prefixed_data channels, rfl, ?_, ?_, ?_⟩
  · simp [prefixed_data, h]
  · simp [prefixed_data]
  · intro i _
    simp [prefixed_data]

/-- Witness for C1 at a concrete 512-byte array. -/
theorem claim_C1_witness :
    (List.replicate 512 3).length = 512 ∧
    ∃ payload : List Nat,
      send_dmx_packet (List.replicate 512 3) 7 2 =
        [.setBaudRate 57600, .setDataBits 7, .setStopBits 1,
         .setParity .parityNone, .setFlowControl .fcNone, .write [0],
         .sleepNanos 136000,
         .setBaudRate 250000, .setDataBits 8, .setStopBits 2,
         .setParity .parityNone, .setFlowControl .fcNone, .write payload,
         .sleepNanos (7 - 2)]
      ∧ payload.length = 513
      ∧ payload[0]? = some 0
      ∧ ∀ i : Nat, i < 512 → payload[i + 1]? = (List.replicate 512 3)[i]? :=
  ⟨List.length_replicate 512 3,
   claim_C1 (List.replicate 512 3) (List.length_replicate 512 3) 7 2⟩

/-- Claim C4: the final inter-packet sleep of `send_dmx_packet` equals the
configured minimum interval minus the elapsed time when the elapsed time is
below the interval, equals zero when the elapsed time has reached or passed
the interval, and is never negative (durations are non-negative
quantities). -/
theorem claim_C4 (channels : List Nat) (minB2B elapsed : Nat) :
    (send_dmx_packet channels minB2B elapsed).getLast? =
        some (.sleepNanos (inter_packet_sleep minB2B elapsed))
    ∧ (elapsed < minB2B → inter_packet_sleep minB2B elapsed = minB2B - elapsed)
    ∧ (minB2B ≤ elapsed → inter_packet_sleep minB2B elapsed = 0)
    ∧ 0 ≤ inter_packet_sleep minB2B elapsed := by
  refine ⟨?_, fun _ => rfl, fun hle => Nat.sub_eq_zero_of_le hle, Nat.zero_le _⟩
  simp [send_dmx_packet, send_break, send_data]

/-- Witness for C4 on both sides of the interval: elapsed below the
interval and elapsed past the interval. -/
theorem claim_C4_witness :
    (2 < 7 → inter_packet_sleep 7 2 = 7 - 2)
    ∧ (7 ≤ 9 → inter_packet_sleep 7 9 = 0)
    ∧ inter_packet_sleep 7 2 = 5
    ∧ inter_packet_sleep 7 9 = 0 :=
  ⟨(claim_C4 [] 7 2).2.1, (claim_C4 [] 7 9).2.2.1,
   (claim_C4 [] 7 2).2.1 (by decide), (claim_C4 [] 7 9).2.2.1 (by decide)⟩

/-- Claim C5: channel validation fails with the too-low error exactly on
indices below 1, with the too-high error exactly on indices above 512, and
succeeds exactly on `[1, 512]`; in particular index 0 is too low and index
513 is too high. -/
theorem claim_C5 (channel : Nat) :
    (check_valid_channel channel = .error .tooLow ↔ channel < 1)
    ∧ (check_valid_channel channel = .error .tooHigh ↔ channel > 512)
    ∧ (check_valid_channel channel = .ok () ↔ 1 ≤ channel ∧ channel ≤ 512)
    ∧ check_valid_channel 0 = .error .tooLow
    ∧ check_valid_channel 513 = .error .tooHigh := by
  refine ⟨?_, ?_, ?_, rfl, rfl⟩ <;>
    · unfold check_valid_channel DMX_CHANNELS
      split_ifs <;> simp <;> omega

/-- Claim C2: `check_agent` reports disconnection exactly when the worker's
completion channel is torn down, succeeds otherwise, and leaves the channel
state untouched.  The completion channel is created by
`mpsc::sync_channel(0)` and the worker only ever calls `try_send` on it, so
its buffer is empty in every reachable state (`rendezvous_never_buffers`);
the theorem assumes that invariant. -/
theorem claim_C2 (ch : CompletionChannel) (hb : ch.buffered = []) :
    ((check_agent ch).1 = .error .mk ↔ ch.senderConnected = false)
    ∧ (check_agent ch).2 = ch := by
  obtain ⟨b, s⟩ := ch
  simp only at hb
  subst hb
  cases s <;> simp [check_agent, try_recv]

/-- Witness for C2 on a live and on a torn-down empty channel. -/
theorem claim_C2_witness :
    (({ buffered := [], senderConnected := true } : CompletionChannel).buffered = [])
    ∧ ((check_agent { buffered := [], senderConnected := true }).1 = .error .mk
        ↔ ({ buffered := [], senderConnected := true } : CompletionChannel).senderConnected = false)
    ∧ (check_agent { buffered := [], senderConnected := true }).2 =
        { buffered := [], senderConnected := true } :=
  ⟨rfl, (claim_C2 { buffered := [], senderConnected := true } rfl).1,
   (claim_C2 { buffered := [], senderConnected := true } rfl).2⟩

/-- Claim C3: `reopen` either succeeds and the channel buffer afterwards
holds exactly the values captured before the call, or fails with the open
error and leaves the whole facade — name, channel buffer, mode flag, packet
interval, signalling endpoints — exactly as it was. -/
theorem claim_C3 (d : DMXSerial) (tok : Nat) (e : String) :
    (d.reopen (.ok tok)).1 = .ok ()
    ∧ (d.reopen (.ok tok)).2.get_channels = d.get_channels
    ∧ d.reopen (.error e) = (.error e, d) :=
  ⟨rfl, rfl, rfl⟩

/-- Claim C9: after a successful `reopen` the mode flag is async, the
packet interval is back to the default 22.7 ms, and the channel values are
carried over from the previous instance. -/
theorem claim_C9 (d : DMXSerial) (tok : Nat) :
    (d.reopen (.ok tok)).2.isSyncMode = false
    ∧ (d.reopen (.ok tok)).2.get_packet_time = DEFAULT_MIN_B2B
    ∧ DEFAULT_MIN_B2B = 22700000
    ∧ (d.reopen (.ok tok)).2.get_channels = d.get_channels :=
  ⟨rfl, rfl, rfl, rfl⟩

/-- Claim C7: `set_channels X` followed by `get_channels` returns `X`
exactly, for every 512-byte array `X` and every prior buffer state. -/
theorem claim_C7 (d : DMXSerial) (X : List Nat) (h : X.length = 512) :
    (d.set_channels X).get_channels = X :=
  rfl

/-- Witness for C7 at a concrete 512-byte array. -/
theorem claim_C7_witness :
    (List.replicate 512 9).length = 512
    ∧ (sampleDMX.set_channels (List.replicate 512 9)).get_channels =
        List.replicate 512 9 :=
  ⟨List.length_replicate 512 9,
   claim_C7 sampleDMX (List.replicate 512 9) (List.length_replicate 512 9)⟩

/-- Validation succeeds on every index in `[1, 512]`. -/
theorem check_valid_channel_ok {channel : Nat} (h1 : 1 ≤ channel)
    (h2 : channel ≤ 512) : check_valid_channel channel = .ok () := by
  unfold check_valid_channel DMX_CHANNELS
  rw [if_neg (by omega), if_neg (by omega)]

/-- Claim C6: for every valid index `i`, value `v` and prior buffer state,
`set_channel i v` succeeds, a following `get_channel i` returns `v`, and
every other valid index reads the same value as before. -/
theorem claim_C6 (d : DMXSerial) (i v : Nat) (hd : d.channels.length = 512)
    (hi1 : 1 ≤ i) (hi2 : i ≤ 512) (hv : v ≤ 255) :
    ∃ d2 : DMXSerial,
      d.set_channel i v = some (.ok d2)
      ∧ d2.get_channel i = some (.ok v)
      ∧ ∀ j : Nat, 1 ≤ j → j ≤ 512 → j ≠ i →
          d2.get_channel j = d.get_channel j := by
  refine ⟨{ d with channels := d.channels.set (i - 1) v }, ?_, ?_, ?_⟩
  · rw [DMXSerial.set_channel, check_valid_channel_ok hi1 hi2]
    simp only
    rw [if_pos (by omega)]
  · rw [DMXSerial.get_channel, check_valid_channel_ok hi1 hi2]
    simp only
    rw [List.getElem?_set_eq_of_lt v (by simp [hd]; omega)]
    rfl
  · intro j hj1 hj2 hji
    rw [DMXSerial.get_channel, DMXSerial.get_channel,
      check_valid_channel_ok hj1 hj2]
    simp only
    rw [List.getElem?_set_ne (by omega)]

/-- Witness for C6: set channel 1 to 255 on the sample facade. -/
theorem claim_C6_witness :
    sampleDMX.channels.length = 512 ∧ 1 ≤ 1 ∧ 1 ≤ 512 ∧ 255 ≤ 255
    ∧ ∃ d2 : DMXSerial,
        sampleDMX.set_channel 1 255 = some (.ok d2)
        ∧ d2.get_channel 1 = some (.ok 255)
        ∧ ∀ j : Nat, 1 ≤ j → j ≤ 512 → j ≠ 1 →
            d2.get_channel j = sampleDMX.get_channel j :=
  ⟨List.length_replicate 512 0, le_refl 1, by omega, le_refl 255,
   claim_C6 sampleDMX 1 255 (List.length_replicate 512 0)
     (le_refl 1) (by omega) (le_refl 255)⟩

/-- Claim C10: on a 512-byte buffer, every index that passes validation is
accessed at position `index - 1`, which is in bounds, so the panic branch
of the indexing operation in `set_channel`/`get_channel` is unreachable;
and when validation fails both operations return the validation error
without touching the buffer. -/
theorem claim_C10 (d : DMXSerial) (channel v : Nat)
    (hd : d.channels.length = 512) :
    (check_valid_channel channel = .ok () →
        channel - 1 < d.channels.length
        ∧ (d.set_channel channel v).isSome
        ∧ (d.get_channel channel).isSome)
    ∧ (∀ e, check_valid_channel channel = .error e →
        d.set_channel channel v = some (.error e)
        ∧ d.get_channel channel = some (.error e)) := by
  constructor
  · intro hok
    have hbounds : 1 ≤ channel ∧ channel ≤ 512 := by
      by_contra hcon
      rw [check_valid_channel] at hok
      unfold DMX_CHANNELS at hok
      split_ifs at hok <;> simp_all
    have hlt : channel - 1 < d.channels.length := by omega
    refine ⟨hlt, ?_, ?_⟩
    · rw [DMXSerial.set_channel, hok]
      simp only
      rw [if_pos hlt]
      rfl
    · rw [DMXSerial.get_channel, hok]
      simp only
      rw [List.getElem?_eq_getElem hlt]
      rfl
  · intro e he
    rw [DMXSerial.set_channel, DMXSerial.get_channel, he]
    exact ⟨rfl, rfl⟩

/-- Witness for C10: both the in-range behaviour at index 512 and the
error behaviour at index 0 of the sample facade. -/
theorem claim_C10_witness :
    sampleDMX.channels.length = 512
    ∧ (check_valid_channel 512 = .ok () →
        512 - 1 < sampleDMX.channels.length
        ∧ (sampleDMX.set_channel 512 17).isSome
        ∧ (sampleDMX.get_channel 512).isSome)
    ∧ (∀ e, check_valid_channel 512 = .error e →
        sampleDMX.set_channel 512 17 = some (.error e)
        ∧ sampleDMX.get_channel 512 = some (.error e)) :=
  ⟨List.length_replicate 512 0,
   (claim_C10 sampleDMX 512 17 (List.length_replicate 512 0)).1,
   (claim_C10 sampleDMX 512 17 (List.length_replicate 512 0)).2⟩

/-- In a run that starts in sync mode right after `open_sync` and in which
the caller never sends a rendezvous trigger, every reachable worker state
still has an empty trigger queue, has sent no frame, and is not at the
`send_dmx_packet` call. -/
theorem worker_sync_untriggered_invariant (s : WorkerState)
    (h : Relation.ReflTransGen (WorkerStep true) worker_initial s) :
    s.framesSent = 0 ∧ s.pc ≠ WPC.sendPacket ∧ s.triggers = [] := by
  induction h with
  | refl => exact ⟨rfl, by simp [worker_initial], rfl⟩
  | tail _ step ih => cases step <;> simp_all

/-- Claim C8: after `open_sync` with no `update` ever issued, no
`send_dmx_packet` step occurs: every state reachable from the initial
worker state under the sync-mode step relation has a frame count of zero
and is never at the send site. -/
theorem claim_C8 (s : WorkerState)
    (h : Relation.ReflTransGen (WorkerStep true) worker_initial s) :
    s.framesSent = 0 ∧ s.pc ≠ WPC.sendPacket :=
  ⟨(worker_sync_untriggered_invariant s h).1,
   (worker_sync_untriggered_invariant s h).2.1⟩

/-- Witness for C8 at the reachable state one step into the loop, where
the worker sits blocked on the rendezvous. -/
theorem claim_C8_witness :
    ({ pc := .waitTrigger, triggers := [], triggerConnected := true,
        framesSent := 0 } : WorkerState).framesSent = 0
    ∧ ({ pc := .waitTrigger, triggers := [], triggerConnected := true,
          framesSent := 0 } : WorkerState).pc ≠ WPC.sendPacket :=
  claim_C8 _ (Relation.ReflTransGen.single (WorkerStep.toWait worker_initial rfl rfl))

end OpenDMX
